import Mathlib

/-!
Verification of the upgrade/bootstrap orchestration of
`src/arangod/RestServer/UpgradeFeature.cpp` and of the transaction-context
registration contract declared in `src/arangod/Transaction/V8Context.h`.

The stateful C++ flow is shallowly embedded as pure Lean functions that
return the ordered trace of observable actions (log-fatal messages, WAL
open, sandbox entry/exit, per-database maintenance invocations, result
writes, shutdown requests) together with whether the process terminated
via `FATAL_ERROR_EXIT` and the final value of the `_result` output slot.
-/

namespace UpgradeModel

/-- Fatal log messages emitted by `UpgradeFeature`, one constructor per
distinct `LOG(FATAL)` site in the source:
- `configConflict`: "cannot specify both --database.upgrade true and
  --database.upgrade-check false" (UpgradeFeature.cpp line 75);
- `walRecoveryFailed`: "Unable to finish WAL recovery procedure" (line 104);
- `upgradeFailed n`: "Database n upgrade failed. Please inspect the logs
  from the upgrade procedure" (line 164);
- `needsUpgrade n`: "Database n needs upgrade. Please start the server
  with the --upgrade option" (line 169);
- `jsError`: "JavaScript error during server start" (line 175). -/
inductive FatalMsg
  | configConflict
  | walRecoveryFailed
  | upgradeFailed (dbName : String)
  | needsUpgrade (dbName : String)
  | jsError
deriving DecidableEq, Repr

/-- Observable actions of the upgrade feature, in program order:
`walOpen` is a successful `wal::LogfileManager::instance()->open()`;
`enterContext` is `V8DealerFeature::DEALER->enterContext` (the scoped
acquisition of the scripting sandbox and of the execution-unit-local
context slot); `injectUpgradeArgs` is setting the `UPGRADE_ARGS` global
with the upgrade flag for one database; `visitDatabase` is the call
`TRI_UpgradeDatabase(vocbase, localContext)` (the maintenance procedure
invocation); `localContextExit` is `localContext->Exit()`;
`exitContext` is `V8DealerFeature::DEALER->exitContext(context)`, which
restores the prior occupant of the execution-unit-local context slot;
`fatal` is a `LOG(FATAL)` followed by `FATAL_ERROR_EXIT()`;
`writeResult c` is `*_result = c`; `beginShutdown` is
`server()->beginShutdown()`. -/
inductive Event
  | walOpen
  | enterContext
  | injectUpgradeArgs (dbName : String) (upgrade : Bool)
  | visitDatabase (dbName : String)
  | localContextExit
  | exitContext
  | fatal (msg : FatalMsg)
  | writeResult (code : Int)
  | beginShutdown
deriving DecidableEq, Repr

/-- The two boolean options of the feature: `--database.upgrade`
(default false) and `--database.upgrade-check` (default true). -/
structure Config where
  upgrade : Bool
  upgradeCheck : Bool
deriving DecidableEq, Repr

/-- One database of the server list together with the outcome of running
the maintenance procedure on it: `ok` is the boolean returned by
`TRI_UpgradeDatabase`, `upgradeStarted` is whether the sandbox global
`UPGRADE_STARTED` is present after the run (the started-marker of the
procedure). -/
structure Database where
  name : String
  ok : Bool
  upgradeStarted : Bool
deriving DecidableEq, Repr

/-- Outcome of a run: the trace of observable events, whether the process
exited via `FATAL_ERROR_EXIT` (`fatalExit`), and the final content of the
`int` slot pointed to by `_result`. -/
structure RunOut where
  trace : List Event
  fatalExit : Bool
  result : Int
deriving DecidableEq, Repr

/-- The loop body of `UpgradeFeature::upgradeDatabase` for a single
database (UpgradeFeature.cpp lines 143-181): inject `UPGRADE_ARGS`, run
`TRI_UpgradeDatabase`; when it fails, branch on the `UPGRADE_STARTED`
marker — present: exit the local context, then fatal with the
upgrade-failed message (upgrade requested) or the needs-upgrade message
(upgrade not requested); absent: fatal with the generic JavaScript-error
message without exiting the local context. Returns the events of this
iteration and whether it ended in `FATAL_ERROR_EXIT`. -/
def runUpgradeScript (upgrade : Bool) (db : Database) : List Event × Bool :=
  let pre := [Event.injectUpgradeArgs db.name upgrade, Event.visitDatabase db.name]
  if db.ok then
    (pre, false)
  else if db.upgradeStarted then
    if upgrade then
      (pre ++ [Event.localContextExit, Event.fatal (FatalMsg.upgradeFailed db.name)], true)
    else
      (pre ++ [Event.localContextExit, Event.fatal (FatalMsg.needsUpgrade db.name)], true)
  else
    (pre ++ [Event.fatal FatalMsg.jsError], true)

/-- The `for (auto& p : theLists->_databases)` loop of
`UpgradeFeature::upgradeDatabase` over the snapshot list of databases:
each database is processed in order; a `FATAL_ERROR_EXIT` in an iteration
terminates the process, so no later database is processed. -/
def sweepLoop (upgrade : Bool) : List Database → List Event × Bool
  | [] => ([], false)
  | db :: rest =>
    let out := runUpgradeScript upgrade db
    if out.2 then out
    else
      let next := sweepLoop upgrade rest
      (out.1 ++ next.1, next.2)

/-- The C `EXIT_SUCCESS` code written to `*_result`. -/
def EXIT_SUCCESS : Int := 0

/-- `UpgradeFeature::upgradeDatabase` (UpgradeFeature.cpp lines 119-198):
enter the sandbox context, run the sweep loop; on normal completion exit
the local context and the dealer context (restoring the prior slot
occupant), then, when upgrade was requested, write `EXIT_SUCCESS` to the
`_result` slot. A fatal exit inside the loop terminates the process
before the exit/restore calls at lines 187-188 are reached. -/
def upgradeDatabase (upgrade : Bool) (dbs : List Database) (r : Int) : RunOut :=
  let out := sweepLoop upgrade dbs
  if out.2 then
    { trace := Event.enterContext :: out.1, fatalExit := true, result := r }
  else
    let evs := Event.enterContext :: out.1 ++ [Event.localContextExit, Event.exitContext]
    if upgrade then
      { trace := evs ++ [Event.writeResult EXIT_SUCCESS], fatalExit := false,
        result := EXIT_SUCCESS }
    else
      { trace := evs, fatalExit := false, result := r }

/-- `UpgradeFeature::start` (UpgradeFeature.cpp lines 99-117): open the
write-ahead log (fatal on failure), run `upgradeDatabase()` when
`_upgradeCheck` is set, and request shutdown when `_upgrade` is set.
`walOpenOk` is the boolean returned by `open()` of the WAL subsystem. -/
def start (cfg : Config) (walOpenOk : Bool) (dbs : List Database) (r : Int) : RunOut :=
  if !walOpenOk then
    { trace := [Event.fatal FatalMsg.walRecoveryFailed], fatalExit := true, result := r }
  else
    let out :=
      if cfg.upgradeCheck then
        let u := upgradeDatabase cfg.upgrade dbs r
        { u with trace := Event.walOpen :: u.trace }
      else
        { trace := [Event.walOpen], fatalExit := false, result := r }
    if out.fatalExit then out
    else if cfg.upgrade then { out with trace := out.trace ++ [Event.beginShutdown] }
    else out

/-- The fatal condition of `UpgradeFeature::validateOptions`
(UpgradeFeature.cpp lines 74-78): `--database.upgrade true` together with
`--database.upgrade-check false` is rejected. -/
def validateOptionsFatal (cfg : Config) : Bool :=
  cfg.upgrade && !cfg.upgradeCheck

/-- The feature lifecycle relevant to the claims: `validateOptions` runs
first (fatal exit on the rejected combination, before anything else),
then `start`. -/
def runFeature (cfg : Config) (walOpenOk : Bool) (dbs : List Database) (r : Int) : RunOut :=
  if validateOptionsFatal cfg then
    { trace := [Event.fatal FatalMsg.configConflict], fatalExit := true, result := r }
  else
    start cfg walOpenOk dbs r

/-- Events emitted by a successful maintenance run on one database. -/
def okEvents (upgrade : Bool) (db : Database) : List Event :=
  [Event.injectUpgradeArgs db.name upgrade, Event.visitDatabase db.name]

/-- Recognizer for maintenance-procedure invocations in a trace. -/
def isVisit : Event → Bool
  | Event.visitDatabase _ => true
  | _ => false

end UpgradeModel

namespace transaction

/-- The per-context state of `transaction::V8Context`
(src/arangod/Transaction/V8Context.h): `currentTransaction` is the
`_currentTransaction` pointer (the currently ongoing transaction, `none`
for null) and `embeddable` the `_embeddable` flag. Transactions are
identified by an abstract id. The thread-local back-references
(`_sharedTransactionContext`, `_mainScope`) play no role in the
registration contract and are omitted. -/
structure V8Context where
  currentTransaction : Option Nat
  embeddable : Bool
deriving DecidableEq, Repr

/-- The error category signalled on context-contract violations. -/
inductive ContextError
  | contextState
deriving DecidableEq, Repr

/-- Modelled from the spec: the implementation of
`transaction::V8Context::registerTransaction` is not among the visible
sources — only its declaration exists, at
src/arangod/Transaction/V8Context.h line 58. Spec section 4.1 defines the
operation: precondition no transaction currently registered; effect
`currentTransaction = txn`; failure signals a `ContextState` error
("transaction already registered"). Returns the possibly updated context
together with the error, if any. -/
def registerTransaction (ctx : V8Context) (trx : Nat) :
    V8Context × Option ContextError :=
  match ctx.currentTransaction with
  | some _ => (ctx, some ContextError.contextState)
  | none => ({ ctx with currentTransaction := some trx }, none)

end transaction

namespace UpgradeModel

lemma runUpgradeScript_ok (upgrade : Bool) (db : Database) (h : db.ok = true) :
    runUpgradeScript upgrade db = (okEvents upgrade db, false) := by
  simp [runUpgradeScript, okEvents, h]

/-- A prefix of databases that all succeed contributes its events and the
loop continues with the rest. -/
lemma sweepLoop_append_ok (upgrade : Bool) (pre rest : List Database)
    (h : ∀ d ∈ pre, d.ok = true) :
    sweepLoop upgrade (pre ++ rest) =
      ((pre.flatMap (okEvents upgrade)) ++ (sweepLoop upgrade rest).1,
        (sweepLoop upgrade rest).2) := by
  induction pre with
  | nil => simp
  | cons d ds ih =>
    have hd : d.ok = true := h d (by simp)
    have hds : ∀ x ∈ ds, x.ok = true := fun x hx => h x (by simp [hx])
    simp [sweepLoop, runUpgradeScript_ok upgrade d hd, ih hds, List.append_assoc]

/-- A sweep over databases that all succeed emits exactly the per-database
events in order and does not exit fatally. -/
lemma sweepLoop_all_ok (upgrade : Bool) (dbs : List Database)
    (h : ∀ d ∈ dbs, d.ok = true) :
    sweepLoop upgrade dbs = (dbs.flatMap (okEvents upgrade), false) := by
  have := sweepLoop_append_ok upgrade dbs [] h
  simpa [sweepLoop] using this

/-- A failing database terminates the loop: the sweep over
`pre ++ db :: post` (all of `pre` succeeding, `db` failing) is the events
of `pre`, the events of `db`, and a fatal exit — independent of `post`. -/
lemma sweepLoop_fatal (upgrade : Bool) (pre post : List Database) (db : Database)
    (h : ∀ d ∈ pre, d.ok = true) (hf : (runUpgradeScript upgrade db).2 = true) :
    sweepLoop upgrade (pre ++ db :: post) =
      (pre.flatMap (okEvents upgrade) ++ (runUpgradeScript upgrade db).1, true) := by
  rw [sweepLoop_append_ok upgrade pre (db :: post) h]
  simp [sweepLoop, hf]

/-- Every event a single-database run can emit. -/
lemma runUpgradeScript_events (u : Bool) (db : Database) (e : Event)
    (h : e ∈ (runUpgradeScript u db).1) :
    e = Event.injectUpgradeArgs db.name u ∨ e = Event.visitDatabase db.name ∨
      e = Event.localContextExit ∨ (∃ m, e = Event.fatal m) := by
  rcases db with ⟨n, ok, st⟩
  cases ok <;> cases st <;> cases u <;> simp [runUpgradeScript] at h <;> tauto

/-- Weakened form of `runUpgradeScript_events` with the database name
existentially quantified. -/
lemma runUpgradeScript_events_ex (u : Bool) (db : Database) (e : Event)
    (h : e ∈ (runUpgradeScript u db).1) :
    (∃ n b, e = Event.injectUpgradeArgs n b) ∨ (∃ n, e = Event.visitDatabase n) ∨
      e = Event.localContextExit ∨ (∃ m, e = Event.fatal m) := by
  rcases runUpgradeScript_events u db e h with h1 | h1 | h1 | ⟨m, h1⟩
  exacts [Or.inl ⟨_, _, h1⟩, Or.inr (Or.inl ⟨_, h1⟩),
    Or.inr (Or.inr (Or.inl h1)), Or.inr (Or.inr (Or.inr ⟨m, h1⟩))]

/-- Every event the sweep loop can emit: per-database injections, visits,
local context exits and fatal messages — in particular never `exitContext`,
`writeResult`, `beginShutdown`, `walOpen` or `enterContext`. -/
lemma sweepLoop_events (u : Bool) (dbs : List Database) (e : Event)
    (h : e ∈ (sweepLoop u dbs).1) :
    (∃ n b, e = Event.injectUpgradeArgs n b) ∨ (∃ n, e = Event.visitDatabase n) ∨
      e = Event.localContextExit ∨ (∃ m, e = Event.fatal m) := by
  induction dbs with
  | nil => simp [sweepLoop] at h
  | cons d ds ih =>
    simp only [sweepLoop] at h
    split at h
    · exact runUpgradeScript_events_ex u d e h
    · rcases List.mem_append.mp h with h1 | h1
      · exact runUpgradeScript_events_ex u d e h1
      · exact ih h1

lemma sweepLoop_no_exitContext (u : Bool) (dbs : List Database) :
    Event.exitContext ∉ (sweepLoop u dbs).1 := by
  intro h
  rcases sweepLoop_events u dbs _ h with ⟨n, b, h1⟩ | ⟨n, h1⟩ | h1 | ⟨m, h1⟩ <;> simp at h1

lemma sweepLoop_no_writeResult (u : Bool) (dbs : List Database) (c : Int) :
    Event.writeResult c ∉ (sweepLoop u dbs).1 := by
  intro h
  rcases sweepLoop_events u dbs _ h with ⟨n, b, h1⟩ | ⟨n, h1⟩ | h1 | ⟨m, h1⟩ <;> simp at h1

lemma sweepLoop_no_beginShutdown (u : Bool) (dbs : List Database) :
    Event.beginShutdown ∉ (sweepLoop u dbs).1 := by
  intro h
  rcases sweepLoop_events u dbs _ h with ⟨n, b, h1⟩ | ⟨n, h1⟩ | h1 | ⟨m, h1⟩ <;> simp at h1

/-- On an all-successful sweep, the subsequence of maintenance-procedure
invocations is exactly the database list, in order: every database is
visited exactly once. -/
lemma filter_visit_flatMap (u : Bool) (dbs : List Database) :
    (dbs.flatMap (okEvents u)).filter isVisit =
      dbs.map (fun d => Event.visitDatabase d.name) := by
  induction dbs with
  | nil => simp
  | cons d ds ih => simp [okEvents, isVisit, ih]

/-- C2: a configuration with upgrade=true and upgrade-check=false is
rejected fatally by `validateOptions`, before the write-ahead log is
opened and before any database is visited (for any WAL outcome, any
database list, any prior result value). -/
theorem upgrade_without_check_rejected_at_validation (walOpenOk : Bool)
    (dbs : List Database) (r : Int) :
    (runFeature ⟨true, false⟩ walOpenOk dbs r).fatalExit = true ∧
    Event.walOpen ∉ (runFeature ⟨true, false⟩ walOpenOk dbs r).trace ∧
    ∀ n, Event.visitDatabase n ∉ (runFeature ⟨true, false⟩ walOpenOk dbs r).trace := by
  simp [runFeature, validateOptionsFatal]

/-- C6: when opening the write-ahead log fails, the process terminates
fatally and no database maintenance is attempted: the sandbox is never
entered and no database is visited. -/
theorem wal_failure_fatal_before_any_database (cfg : Config)
    (dbs : List Database) (r : Int) :
    (runFeature cfg false dbs r).fatalExit = true ∧
    Event.enterContext ∉ (runFeature cfg false dbs r).trace ∧
    ∀ n, Event.visitDatabase n ∉ (runFeature cfg false dbs r).trace := by
  by_cases hv : validateOptionsFatal cfg <;> simp [runFeature, start, hv]

/-- C9: with upgrade-check=false, either upgrade=true and validation
exits fatally, or upgrade=false and `start` performs only the WAL open:
no sandbox entry, no database visit, no result write, no shutdown
request, and the result slot keeps its prior value. -/
theorem upgrade_check_disabled_skips_sweep (cfg : Config)
    (dbs : List Database) (r : Int) (hc : cfg.upgradeCheck = false) :
    (cfg.upgrade = true → runFeature cfg true dbs r =
      { trace := [Event.fatal FatalMsg.configConflict], fatalExit := true,
        result := r }) ∧
    (cfg.upgrade = false → runFeature cfg true dbs r =
      { trace := [Event.walOpen], fatalExit := false, result := r }) := by
  rcases cfg with ⟨u, c⟩
  simp only [Config.upgradeCheck] at hc
  subst hc
  cases u <;> simp [runFeature, validateOptionsFatal, start]

/-- C9 witness: with upgrade=false, upgrade-check=false and one database,
the run performs only the WAL open and leaves the result slot at 5. -/
theorem upgrade_check_disabled_skips_sweep_witness :
    runFeature ⟨false, false⟩ true [⟨"a", true, true⟩] 5 =
      { trace := [Event.walOpen], fatalExit := false, result := 5 } :=
  (upgrade_check_disabled_skips_sweep ⟨false, false⟩ [⟨"a", true, true⟩] 5 rfl).2 rfl

end UpgradeModel

namespace transaction

/-- C8: registering a transaction on a context that already has one
registered fails with the `ContextState` error and does not overwrite the
first registration: after a successful first `registerTransaction`, a
second call returns the error and the context still holds the first
transaction as its current one. -/
theorem register_transaction_twice_fails (ctx : V8Context) (t1 t2 : Nat)
    (h : ctx.currentTransaction = none) :
    (registerTransaction ctx t1).2 = none ∧
    (registerTransaction (registerTransaction ctx t1).1 t2).2 =
      some ContextError.contextState ∧
    (registerTransaction (registerTransaction ctx t1).1 t2).1.currentTransaction =
      some t1 := by
  simp [registerTransaction, h]

/-- C8 witness: on a fresh embeddable context, registering transaction 1
succeeds and a second registration of transaction 2 fails with the
`ContextState` error, leaving transaction 1 registered. -/
theorem register_transaction_twice_fails_witness :
    (registerTransaction ⟨none, true⟩ 1).2 = none ∧
    (registerTransaction (registerTransaction ⟨none, true⟩ 1).1 2).2 =
      some ContextError.contextState ∧
    (registerTransaction (registerTransaction ⟨none, true⟩ 1).1 2).1.currentTransaction =
      some 1 :=
  register_transaction_twice_fails ⟨none, true⟩ 1 2 rfl

end transaction

namespace UpgradeModel

/-- C4: with upgrade=true, a WAL open that succeeds and a maintenance
procedure that succeeds on every known database, the run is not fatal,
the result slot is set to `EXIT_SUCCESS`, and a graceful shutdown of the
server is requested. -/
theorem successful_upgrade_sets_result_and_shutdown
    (dbs : List Database) (r : Int) (h : ∀ db ∈ dbs, db.ok = true) :
    (runFeature ⟨true, true⟩ true dbs r).fatalExit = false ∧
    (runFeature ⟨true, true⟩ true dbs r).result = EXIT_SUCCESS ∧
    Event.writeResult EXIT_SUCCESS ∈ (runFeature ⟨true, true⟩ true dbs r).trace ∧
    Event.beginShutdown ∈ (runFeature ⟨true, true⟩ true dbs r).trace := by
  have hs := sweepLoop_all_ok true dbs h
  simp [runFeature, validateOptionsFatal, start, upgradeDatabase, hs]

/-- C4 witness: an upgrade over two all-successful databases ends
non-fatally with result `EXIT_SUCCESS` and a shutdown request. -/
theorem successful_upgrade_sets_result_and_shutdown_witness :
    (runFeature ⟨true, true⟩ true [⟨"a", true, true⟩, ⟨"b", true, true⟩] 7).fatalExit = false ∧
    (runFeature ⟨true, true⟩ true [⟨"a", true, true⟩, ⟨"b", true, true⟩] 7).result = EXIT_SUCCESS ∧
    Event.writeResult EXIT_SUCCESS ∈
      (runFeature ⟨true, true⟩ true [⟨"a", true, true⟩, ⟨"b", true, true⟩] 7).trace ∧
    Event.beginShutdown ∈
      (runFeature ⟨true, true⟩ true [⟨"a", true, true⟩, ⟨"b", true, true⟩] 7).trace :=
  successful_upgrade_sets_result_and_shutdown
    [⟨"a", true, true⟩, ⟨"b", true, true⟩] 7 (by decide)

/-- C5: with upgrade=false and upgrade-check=true, when every database
succeeds, the run is not fatal, no shutdown is requested, and the
subsequence of maintenance-procedure invocations in the trace is exactly
the database list in its native order — every known database is visited
exactly once. -/
theorem check_only_sweep_visits_all_no_shutdown
    (dbs : List Database) (r : Int) (h : ∀ db ∈ dbs, db.ok = true) :
    (runFeature ⟨false, true⟩ true dbs r).fatalExit = false ∧
    Event.beginShutdown ∉ (runFeature ⟨false, true⟩ true dbs r).trace ∧
    (runFeature ⟨false, true⟩ true dbs r).trace.filter isVisit =
      dbs.map (fun d => Event.visitDatabase d.name) := by
  have hs := sweepLoop_all_ok false dbs h
  have hns := sweepLoop_no_beginShutdown false dbs
  rw [hs] at hns
  refine ⟨?_, ?_, ?_⟩
  · simp [runFeature, validateOptionsFatal, start, upgradeDatabase, hs]
  · simp only [runFeature, validateOptionsFatal, start, upgradeDatabase, hs]
    simp [hns]
  · simp [runFeature, validateOptionsFatal, start, upgradeDatabase, hs,
      List.filter_append, filter_visit_flatMap, isVisit]

/-- C5 witness: a pure upgrade check over three all-successful databases
visits exactly the three databases in order, is not fatal, and requests
no shutdown. -/
theorem check_only_sweep_visits_all_no_shutdown_witness :
    (runFeature ⟨false, true⟩ true
        [⟨"a", true, true⟩, ⟨"b", true, true⟩, ⟨"c", true, true⟩] 7).fatalExit = false ∧
    Event.beginShutdown ∉ (runFeature ⟨false, true⟩ true
        [⟨"a", true, true⟩, ⟨"b", true, true⟩, ⟨"c", true, true⟩] 7).trace ∧
    (runFeature ⟨false, true⟩ true
        [⟨"a", true, true⟩, ⟨"b", true, true⟩, ⟨"c", true, true⟩] 7).trace.filter isVisit =
      [Event.visitDatabase "a", Event.visitDatabase "b", Event.visitDatabase "c"] :=
  check_only_sweep_visits_all_no_shutdown
    [⟨"a", true, true⟩, ⟨"b", true, true⟩, ⟨"c", true, true⟩] 7 (by decide)

/-- C3: with upgrade=true, when a database whose procedure started fails
after an all-successful prefix, the run exits fatally with the message
naming that database, and the whole outcome is independent of the
databases that follow it in the sequence: the maintenance procedure of no
later database is invoked. -/
theorem upgrade_failure_fail_fast (pre post : List Database) (db : Database)
    (r : Int) (hpre : ∀ d ∈ pre, d.ok = true) (hok : db.ok = false)
    (hst : db.upgradeStarted = true) :
    (runFeature ⟨true, true⟩ true (pre ++ db :: post) r).fatalExit = true ∧
    Event.fatal (FatalMsg.upgradeFailed db.name) ∈
      (runFeature ⟨true, true⟩ true (pre ++ db :: post) r).trace ∧
    runFeature ⟨true, true⟩ true (pre ++ db :: post) r =
      runFeature ⟨true, true⟩ true (pre ++ [db]) r := by
  have hscript : runUpgradeScript true db =
      ([Event.injectUpgradeArgs db.name true, Event.visitDatabase db.name,
        Event.localContextExit, Event.fatal (FatalMsg.upgradeFailed db.name)],
        true) := by
    simp [runUpgradeScript, hok, hst]
  have h1 := sweepLoop_fatal true pre post db hpre (by rw [hscript])
  have h2 := sweepLoop_fatal true pre [] db hpre (by rw [hscript])
  rw [hscript] at h1 h2
  refine ⟨?_, ?_, ?_⟩ <;>
    simp [runFeature, validateOptionsFatal, start, upgradeDatabase, h1, h2]

/-- C3 witness: with databases a, b, c where b fails after starting, the
run is fatal with the message naming b and equals the run that never saw
c. -/
theorem upgrade_failure_fail_fast_witness :
    (runFeature ⟨true, true⟩ true
        [⟨"a", true, true⟩, ⟨"b", false, true⟩, ⟨"c", true, true⟩] 3).fatalExit = true ∧
    Event.fatal (FatalMsg.upgradeFailed "b") ∈
      (runFeature ⟨true, true⟩ true
        [⟨"a", true, true⟩, ⟨"b", false, true⟩, ⟨"c", true, true⟩] 3).trace ∧
    runFeature ⟨true, true⟩ true
        [⟨"a", true, true⟩, ⟨"b", false, true⟩, ⟨"c", true, true⟩] 3 =
      runFeature ⟨true, true⟩ true [⟨"a", true, true⟩, ⟨"b", false, true⟩] 3 :=
  upgrade_failure_fail_fast [⟨"a", true, true⟩] [⟨"c", true, true⟩]
    ⟨"b", false, true⟩ 3 (by decide) rfl rfl

/-- C1 counterexample: a failing maintenance run whose started-marker is
absent, with upgrade not requested, exits with the generic script-error
message — not with the please-start-with-upgrade message the claim
assigns to the absent-marker case, and not with the generic
upgrade-failure message either. -/
theorem marker_absent_message_counterexample :
    (runFeature ⟨false, true⟩ true [⟨"test", false, false⟩] 5).fatalExit = true ∧
    Event.fatal FatalMsg.jsError ∈
      (runFeature ⟨false, true⟩ true [⟨"test", false, false⟩] 5).trace ∧
    Event.fatal (FatalMsg.needsUpgrade "test") ∉
      (runFeature ⟨false, true⟩ true [⟨"test", false, false⟩] 5).trace ∧
    Event.fatal (FatalMsg.upgradeFailed "test") ∉
      (runFeature ⟨false, true⟩ true [⟨"test", false, false⟩] 5).trace := by
  decide

/-- C1 amended: for every failing maintenance run, when the
started-marker is present the process exits fatally with the generic
upgrade-failure message if upgrade was requested, or with the
please-start-with-upgrade message if it was not; when the marker is
absent the exit carries the generic script-error message, and neither of
the two upgrade messages is emitted. -/
theorem failure_message_by_started_marker (upgrade : Bool) (db : Database)
    (hfail : db.ok = false) :
    (runUpgradeScript upgrade db).2 = true ∧
    Event.fatal (if db.upgradeStarted then
        (if upgrade then FatalMsg.upgradeFailed db.name
          else FatalMsg.needsUpgrade db.name)
      else FatalMsg.jsError) ∈ (runUpgradeScript upgrade db).1 ∧
    (db.upgradeStarted = false →
      Event.fatal (FatalMsg.needsUpgrade db.name) ∉ (runUpgradeScript upgrade db).1 ∧
      Event.fatal (FatalMsg.upgradeFailed db.name) ∉ (runUpgradeScript upgrade db).1) := by
  rcases db with ⟨n, ok, st⟩
  simp only [Database.ok] at hfail
  subst hfail
  cases st <;> cases upgrade <;> simp [runUpgradeScript]

/-- C1 amended witness: a database failing with the marker absent and
upgrade not requested yields a fatal script-error message and neither
upgrade message. -/
theorem failure_message_by_started_marker_witness :
    (runUpgradeScript false ⟨"x", false, false⟩).2 = true ∧
    Event.fatal FatalMsg.jsError ∈ (runUpgradeScript false ⟨"x", false, false⟩).1 ∧
    Event.fatal (FatalMsg.needsUpgrade "x") ∉ (runUpgradeScript false ⟨"x", false, false⟩).1 ∧
    Event.fatal (FatalMsg.upgradeFailed "x") ∉ (runUpgradeScript false ⟨"x", false, false⟩).1 :=
  have h := failure_message_by_started_marker false ⟨"x", false, false⟩ rfl
  ⟨h.1, h.2.1, (h.2.2 rfl).1, (h.2.2 rfl).2⟩

/-- C7 counterexample: a sweep whose only database fails without the
started-marker terminates fatally after entering the sandbox, but neither
restores the execution-unit-local context slot (no `exitContext`) nor
even exits the local context. -/
theorem fatal_path_skips_context_restore_counterexample :
    (upgradeDatabase true [⟨"db1", false, false⟩] 1).fatalExit = true ∧
    Event.enterContext ∈ (upgradeDatabase true [⟨"db1", false, false⟩] 1).trace ∧
    Event.exitContext ∉ (upgradeDatabase true [⟨"db1", false, false⟩] 1).trace ∧
    Event.localContextExit ∉ (upgradeDatabase true [⟨"db1", false, false⟩] 1).trace := by
  decide

/-- C7 amended: the sandbox scope is exited and the prior occupant of the
execution-unit-local context slot restored exactly on the path on which
control returns normally from the sweep; every fatal path terminates the
process without restoring the slot. -/
theorem sandbox_slot_restored_only_on_normal_return (u : Bool)
    (dbs : List Database) (r : Int) :
    ((upgradeDatabase u dbs r).fatalExit = false →
      Event.localContextExit ∈ (upgradeDatabase u dbs r).trace ∧
      Event.exitContext ∈ (upgradeDatabase u dbs r).trace) ∧
    ((upgradeDatabase u dbs r).fatalExit = true →
      Event.exitContext ∉ (upgradeDatabase u dbs r).trace) := by
  cases hb : (sweepLoop u dbs).2 with
  | false =>
    constructor
    · intro _
      cases u <;> simp [upgradeDatabase, hb]
    · intro hc
      cases u <;> simp [upgradeDatabase, hb] at hc
  | true =>
    constructor
    · intro hc
      simp [upgradeDatabase, hb] at hc
    · intro _ hmem
      simp [upgradeDatabase, hb] at hmem
      exact sweepLoop_no_exitContext u dbs hmem

/-- C7 amended witness: a sweep over one successful database restores the
local context and the context slot. -/
theorem sandbox_slot_restored_only_on_normal_return_witness :
    Event.localContextExit ∈ (upgradeDatabase false [⟨"a", true, true⟩] 2).trace ∧
    Event.exitContext ∈ (upgradeDatabase false [⟨"a", true, true⟩] 2).trace :=
  (sandbox_slot_restored_only_on_normal_return false [⟨"a", true, true⟩] 2).1 (by decide)

/-- The sweep writes the result slot only with `EXIT_SUCCESS`, only when
upgrade was requested and the sweep did not exit fatally. -/
lemma upgradeDatabase_writeResult_mem (u : Bool) (dbs : List Database)
    (r c : Int) (h : Event.writeResult c ∈ (upgradeDatabase u dbs r).trace) :
    c = EXIT_SUCCESS ∧ u = true ∧ (upgradeDatabase u dbs r).fatalExit = false := by
  cases hb : (sweepLoop u dbs).2 with
  | true =>
    simp [upgradeDatabase, hb] at h
    exact absurd h (sweepLoop_no_writeResult u dbs c)
  | false =>
    cases u with
    | false =>
      simp [upgradeDatabase, hb] at h
      exact absurd h (sweepLoop_no_writeResult false dbs c)
    | true =>
      simp [upgradeDatabase, hb] at h
      rcases h with h | h
      · exact absurd h (sweepLoop_no_writeResult true dbs c)
      · exact ⟨h, rfl, by simp [upgradeDatabase, hb]⟩

/-- The sweep leaves the result slot unchanged when upgrade was not
requested, and on every fatal exit. -/
lemma upgradeDatabase_result_frame (u : Bool) (dbs : List Database)
    (r : Int) (h : u = false ∨ (upgradeDatabase u dbs r).fatalExit = true) :
    (upgradeDatabase u dbs r).result = r := by
  cases hb : (sweepLoop u dbs).2 <;> cases u <;> rcases h with h | h <;>
    simp_all [upgradeDatabase]

/-- C10: the result slot is written, always with `EXIT_SUCCESS`, only on
a run with upgrade=true whose sweep completes without a fatal exit; with
upgrade=false, and likewise on every fatal exit, the feature leaves the
slot at its prior value. -/
theorem result_written_only_on_successful_upgrade (cfg : Config)
    (walOpenOk : Bool) (dbs : List Database) (r : Int) :
    (∀ c, Event.writeResult c ∈ (runFeature cfg walOpenOk dbs r).trace →
      c = EXIT_SUCCESS ∧ cfg.upgrade = true ∧
      (runFeature cfg walOpenOk dbs r).fatalExit = false) ∧
    (cfg.upgrade = false → (runFeature cfg walOpenOk dbs r).result = r) ∧
    ((runFeature cfg walOpenOk dbs r).fatalExit = true →
      (runFeature cfg walOpenOk dbs r).result = r) := by
  rcases cfg with ⟨u, c⟩
  cases c with
  | false =>
    cases u <;> cases walOpenOk <;>
      simp [runFeature, validateOptionsFatal, start]
  | true =>
    cases walOpenOk with
    | false => cases u <;> simp [runFeature, validateOptionsFatal, start]
    | true =>
      have hwr := fun c => upgradeDatabase_writeResult_mem u dbs r c
      have hfr := upgradeDatabase_result_frame u dbs r
      cases hb : (upgradeDatabase u dbs r).fatalExit with
      | true =>
        refine ⟨?_, ?_, ?_⟩
        · intro cc hmem
          simp [runFeature, validateOptionsFatal, start, hb] at hmem
          rcases hwr cc hmem with ⟨_, _, habs⟩
          simp [hb] at habs
        · intro _
          simp [runFeature, validateOptionsFatal, start, hb, hfr (Or.inr hb)]
        · intro _
          simp [runFeature, validateOptionsFatal, start, hb, hfr (Or.inr hb)]
      | false =>
        cases u with
        | false =>
          refine ⟨?_, ?_, ?_⟩
          · intro cc hmem
            simp [runFeature, validateOptionsFatal, start, hb] at hmem
            rcases hwr cc hmem with ⟨_, habs, _⟩
            exact absurd habs (by simp)
          · intro _
            simp [runFeature, validateOptionsFatal, start, hb, hfr (Or.inl rfl)]
          · intro habs
            simp [runFeature, validateOptionsFatal, start, hb] at habs
        | true =>
          refine ⟨?_, ?_, ?_⟩
          · intro cc hmem
            simp [runFeature, validateOptionsFatal, start, hb] at hmem
            rcases hwr cc hmem with ⟨h1, _, _⟩
            exact ⟨h1, rfl, by simp [runFeature, validateOptionsFatal, start, hb]⟩
          · intro habs
            simp at habs
          · intro habs
            simp [runFeature, validateOptionsFatal, start, hb] at habs

/-- C10 witness: a pure upgrade-check run leaves the result slot at its
prior value 9. -/
theorem result_written_only_on_successful_upgrade_witness :
    (runFeature ⟨false, true⟩ true [⟨"a", true, true⟩] 9).result = 9 :=
  (result_written_only_on_successful_upgrade
    ⟨false, true⟩ true [⟨"a", true, true⟩] 9).2.1 rfl

end UpgradeModel
